import Mathlib

/-!
Formal model of the `dp_ws` training pipeline (registry / configuration
resolution layer and training-run orchestration driver).

The definitions below are a shallow embedding of the Python sources:

* `src/scripts/train_jax_ppo.py`  — flag-override config resolution
  (`main`, lines 209-262), checkpoint resolution (lines 293-308), the
  orchestration prefix of `main` (lines 204-319), and the rollout
  recorder (`do_rollout`, lines 433-470).
* `src/methods/envs/registry.py` — the top-level environment registry.
* `src/methods/envs/locomotion/__init__.py` — the locomotion suite
  sub-registry.

Machine-level details that no claim depends on are abstracted: numeric
configuration values (Python ints and floats) are carried as `Int` / `Rat`
payloads that the resolver merely moves around, environment factories and
randomizer functions (external jax code) are reduced to their registry
keys, and simulation state arrays are abstracted to `Int` tokens.
-/

namespace DpWs

/-! ### String utilities

Python error messages quote names with single-quote characters and render
key lists with `repr`.  We rebuild those exact strings; the single quote
character is produced from its code point. -/

def quoteCh : String := String.mk [Char.ofNat 39]

/-- Wrap a string in single quotes, as Python `repr` does for `str`. -/
def pyQuote (s : String) : String := quoteCh ++ s ++ quoteCh

/-- Python `repr` of a list of strings: `['a', 'b']`. -/
def pyListRepr (names : List String) : String :=
  "[" ++ String.intercalate ", " (names.map pyQuote) ++ "]"

/-- Python `repr` of a tuple of strings: `('a', 'b')`. -/
def pyTupleRepr (names : List String) : String :=
  "(" ++ String.intercalate ", " (names.map pyQuote) ++ ")"

/-- `listStartsWith l p` is true when `p` is an initial segment of `l`. -/
def listStartsWith : List Char → List Char → Bool
  | _, [] => true
  | [], _ :: _ => false
  | a :: l, b :: p => a = b && listStartsWith l p

/-- `containsSub l p` is true when `p` occurs contiguously inside `l`. -/
def containsSub (l p : List Char) : Bool :=
  listStartsWith l p ||
    match l with
    | [] => false
    | _ :: rest => containsSub rest p

/-- Substring test on strings (Python `in` on `str`). -/
def strContains (s pat : String) : Bool := containsSub s.data pat.data

/-- Lower-case an ASCII character (model of Python `str.lower` per char). -/
def lowerChar (c : Char) : Char :=
  if 64 < c.toNat && c.toNat < 91 then Char.ofNat (c.toNat + 32) else c

/-- Model of Python `str.lower()` for the ASCII agent names used here. -/
def lowerStr (s : String) : String := String.mk (s.data.map lowerChar)

/-! ### Configuration resolution (ConfigResolver)

Embedding of `train_jax_ppo.py`, `main` lines 209-262.  The base
configuration `rl_params` is an `ml_collections.ConfigDict` produced by the
external `brax_ppo_config` factory; its top-level scalar fields and the
nested `network_factory` sub-tree are modelled by `RLParams`.  Each absl
flag carries a value together with its `present` bit (`flag.present` in the
source); overrides are applied field by field, in source order, only when
the flag was explicitly supplied. -/

/-- An absl command-line flag: a value plus its explicit-presence bit. -/
structure Flag (α : Type) where
  value : α
  is_present : Bool
deriving DecidableEq

/-- The nested `network_factory` sub-tree of the PPO hyperparameter
configuration. -/
structure NetworkFactoryCfg where
  policy_hidden_layer_sizes : List Int
  value_hidden_layer_sizes : List Int
  policy_obs_key : String
  value_obs_key : String
deriving DecidableEq

/-- The PPO hyperparameter configuration tree (`rl_params` in the source).
Python ints are carried as `Int`, floats as `Rat`; the resolver only moves
these values, never computes with them.  `network_factory` is `none` when
the base configuration has no such sub-tree. -/
structure RLParams where
  num_timesteps : Int
  num_evals : Int
  reward_scaling : Rat
  episode_length : Int
  normalize_observations : Bool
  action_repeat : Int
  unroll_length : Int
  num_minibatches : Int
  num_updates_per_batch : Int
  discounting : Rat
  learning_rate : Rat
  entropy_cost : Rat
  num_envs : Int
  num_eval_envs : Int
  batch_size : Int
  max_grad_norm : Rat
  clipping_epsilon : Rat
  network_factory : Option NetworkFactoryCfg
  run_evals : Bool
  log_training_metrics : Bool
  training_metrics_steps : Int
deriving DecidableEq

/-- The command-line override set of `main`, lines 209-262: one flag per
overridable field, in source order.  The `policy/value_hidden_layer_sizes`
flags are comma-separated lists converted by `list(map(int, ...))` in the
source; the already-converted integer lists are carried here. -/
structure Flags where
  num_timesteps : Flag Int
  play_only : Flag Bool
  num_evals : Flag Int
  reward_scaling : Flag Rat
  episode_length : Flag Int
  normalize_observations : Flag Bool
  action_repeat : Flag Int
  unroll_length : Flag Int
  num_minibatches : Flag Int
  num_updates_per_batch : Flag Int
  discounting : Flag Rat
  learning_rate : Flag Rat
  entropy_cost : Flag Rat
  num_envs : Flag Int
  num_eval_envs : Flag Int
  batch_size : Flag Int
  max_grad_norm : Flag Rat
  clipping_epsilon : Flag Rat
  policy_hidden_layer_sizes : Flag (List Int)
  value_hidden_layer_sizes : Flag (List Int)
  policy_obs_key : Flag String
  value_obs_key : Flag String
  run_evals : Flag Bool
  log_training_metrics : Flag Bool
  training_metrics_steps : Flag Int
deriving DecidableEq

/-- Failure modes of the override block.  `attributeError` models the
Python `AttributeError` raised by `ml_collections.ConfigDict` attribute
access on a missing key (reading `rl_params.network_factory` when the base
configuration has no such sub-tree). -/
inductive ResolveError where
  | attributeError (missing : String)
deriving DecidableEq

/-- `rl_params.network_factory.<field> = v`: reads the `network_factory`
attribute (raising `AttributeError` when absent, as `ConfigDict` does) and
sets one nested field on it. -/
def setNetworkFactory (p : RLParams) (upd : NetworkFactoryCfg → NetworkFactoryCfg) :
    Except ResolveError RLParams :=
  match p.network_factory with
  | none => .error (.attributeError "network_factory")
  | some nf => .ok { p with network_factory := some (upd nf) }

/-- Lines 209-244 of `main`: the top-level scalar overrides preceding the
nested block, applied in source order (`play_only` overwrites
`num_timesteps` after the `num_timesteps` flag itself). -/
def applyTopA (p0 : RLParams) (f : Flags) : RLParams :=
  let p := p0
  let p := if f.num_timesteps.is_present then { p with num_timesteps := f.num_timesteps.value } else p
  let p := if f.play_only.is_present then { p with num_timesteps := 0 } else p
  let p := if f.num_evals.is_present then { p with num_evals := f.num_evals.value } else p
  let p := if f.reward_scaling.is_present then { p with reward_scaling := f.reward_scaling.value } else p
  let p := if f.episode_length.is_present then { p with episode_length := f.episode_length.value } else p
  let p := if f.normalize_observations.is_present then { p with normalize_observations := f.normalize_observations.value } else p
  let p := if f.action_repeat.is_present then { p with action_repeat := f.action_repeat.value } else p
  let p := if f.unroll_length.is_present then { p with unroll_length := f.unroll_length.value } else p
  let p := if f.num_minibatches.is_present then { p with num_minibatches := f.num_minibatches.value } else p
  let p := if f.num_updates_per_batch.is_present then { p with num_updates_per_batch := f.num_updates_per_batch.value } else p
  let p := if f.discounting.is_present then { p with discounting := f.discounting.value } else p
  let p := if f.learning_rate.is_present then { p with learning_rate := f.learning_rate.value } else p
  let p := if f.entropy_cost.is_present then { p with entropy_cost := f.entropy_cost.value } else p
  let p := if f.num_envs.is_present then { p with num_envs := f.num_envs.value } else p
  let p := if f.num_eval_envs.is_present then { p with num_eval_envs := f.num_eval_envs.value } else p
  let p := if f.batch_size.is_present then { p with batch_size := f.batch_size.value } else p
  let p := if f.max_grad_norm.is_present then { p with max_grad_norm := f.max_grad_norm.value } else p
  let p := if f.clipping_epsilon.is_present then { p with clipping_epsilon := f.clipping_epsilon.value } else p
  p

/-- Lines 245-256 of `main`: the nested `network_factory` overrides, each
applied independently and only when its flag is present. -/
def applyNestedSteps (p : RLParams) (f : Flags) : Except ResolveError RLParams := do
  let p ← if f.policy_hidden_layer_sizes.is_present then
      setNetworkFactory p (fun nf => { nf with policy_hidden_layer_sizes := f.policy_hidden_layer_sizes.value })
    else pure p
  let p ← if f.value_hidden_layer_sizes.is_present then
      setNetworkFactory p (fun nf => { nf with value_hidden_layer_sizes := f.value_hidden_layer_sizes.value })
    else pure p
  let p ← if f.policy_obs_key.is_present then
      setNetworkFactory p (fun nf => { nf with policy_obs_key := f.policy_obs_key.value })
    else pure p
  let p ← if f.value_obs_key.is_present then
      setNetworkFactory p (fun nf => { nf with value_obs_key := f.value_obs_key.value })
    else pure p
  return p

/-- Lines 257-262 of `main`: the top-level overrides following the nested
block. -/
def applyTopB (p : RLParams) (f : Flags) : RLParams :=
  let p := if f.run_evals.is_present then { p with run_evals := f.run_evals.value } else p
  let p := if f.log_training_metrics.is_present then { p with log_training_metrics := f.log_training_metrics.value } else p
  let p := if f.training_metrics_steps.is_present then { p with training_metrics_steps := f.training_metrics_steps.value } else p
  p

/-- The whole override block of `main`, lines 209-262, in source order. -/
def applyFlagOverrides (p0 : RLParams) (f : Flags) : Except ResolveError RLParams := do
  let p := applyTopA p0 f
  let p ← applyNestedSteps p f
  return applyTopB p f

/-- True when at least one nested `network_factory` flag is present. -/
def nestedPresent (f : Flags) : Bool :=
  f.policy_hidden_layer_sizes.is_present || f.value_hidden_layer_sizes.is_present ||
    f.policy_obs_key.is_present || f.value_obs_key.is_present

/-- Leaf-level merge of the present nested flags into an existing
`network_factory` sub-tree (the observable effect of lines 245-256 when
the sub-tree exists). -/
def applyNested (nf : NetworkFactoryCfg) (f : Flags) : NetworkFactoryCfg :=
  { policy_hidden_layer_sizes :=
      if f.policy_hidden_layer_sizes.is_present then f.policy_hidden_layer_sizes.value
      else nf.policy_hidden_layer_sizes
    value_hidden_layer_sizes :=
      if f.value_hidden_layer_sizes.is_present then f.value_hidden_layer_sizes.value
      else nf.value_hidden_layer_sizes
    policy_obs_key :=
      if f.policy_obs_key.is_present then f.policy_obs_key.value
      else nf.policy_obs_key
    value_obs_key :=
      if f.value_obs_key.is_present then f.value_obs_key.value
      else nf.value_obs_key }

attribute [ext] NetworkFactoryCfg RLParams

/-- Normal form of the top-level override block (lines 209-244 and 257-262
combined): every scalar field is its flag value when present and the base
value otherwise; `play_only` overwrites `num_timesteps` with `0` after the
`num_timesteps` flag itself; `network_factory` is untouched. -/
def normTop (p : RLParams) (f : Flags) : RLParams :=
  { num_timesteps :=
      if f.play_only.is_present then 0
      else if f.num_timesteps.is_present then f.num_timesteps.value else p.num_timesteps
    num_evals := if f.num_evals.is_present then f.num_evals.value else p.num_evals
    reward_scaling := if f.reward_scaling.is_present then f.reward_scaling.value else p.reward_scaling
    episode_length := if f.episode_length.is_present then f.episode_length.value else p.episode_length
    normalize_observations :=
      if f.normalize_observations.is_present then f.normalize_observations.value else p.normalize_observations
    action_repeat := if f.action_repeat.is_present then f.action_repeat.value else p.action_repeat
    unroll_length := if f.unroll_length.is_present then f.unroll_length.value else p.unroll_length
    num_minibatches := if f.num_minibatches.is_present then f.num_minibatches.value else p.num_minibatches
    num_updates_per_batch :=
      if f.num_updates_per_batch.is_present then f.num_updates_per_batch.value else p.num_updates_per_batch
    discounting := if f.discounting.is_present then f.discounting.value else p.discounting
    learning_rate := if f.learning_rate.is_present then f.learning_rate.value else p.learning_rate
    entropy_cost := if f.entropy_cost.is_present then f.entropy_cost.value else p.entropy_cost
    num_envs := if f.num_envs.is_present then f.num_envs.value else p.num_envs
    num_eval_envs := if f.num_eval_envs.is_present then f.num_eval_envs.value else p.num_eval_envs
    batch_size := if f.batch_size.is_present then f.batch_size.value else p.batch_size
    max_grad_norm := if f.max_grad_norm.is_present then f.max_grad_norm.value else p.max_grad_norm
    clipping_epsilon := if f.clipping_epsilon.is_present then f.clipping_epsilon.value else p.clipping_epsilon
    network_factory := p.network_factory
    run_evals := if f.run_evals.is_present then f.run_evals.value else p.run_evals
    log_training_metrics :=
      if f.log_training_metrics.is_present then f.log_training_metrics.value else p.log_training_metrics
    training_metrics_steps :=
      if f.training_metrics_steps.is_present then f.training_metrics_steps.value else p.training_metrics_steps }

/-- Exactly the `learning_rate` flag was supplied on the command line. -/
@[reducible] def OnlyLearningRate (f : Flags) : Prop :=
  f.learning_rate.is_present = true ∧
  f.num_timesteps.is_present = false ∧ f.play_only.is_present = false ∧
  f.num_evals.is_present = false ∧ f.reward_scaling.is_present = false ∧
  f.episode_length.is_present = false ∧ f.normalize_observations.is_present = false ∧
  f.action_repeat.is_present = false ∧ f.unroll_length.is_present = false ∧
  f.num_minibatches.is_present = false ∧ f.num_updates_per_batch.is_present = false ∧
  f.discounting.is_present = false ∧ f.entropy_cost.is_present = false ∧
  f.num_envs.is_present = false ∧ f.num_eval_envs.is_present = false ∧
  f.batch_size.is_present = false ∧ f.max_grad_norm.is_present = false ∧
  f.clipping_epsilon.is_present = false ∧ f.policy_hidden_layer_sizes.is_present = false ∧
  f.value_hidden_layer_sizes.is_present = false ∧ f.policy_obs_key.is_present = false ∧
  f.value_obs_key.is_present = false ∧ f.run_evals.is_present = false ∧
  f.log_training_metrics.is_present = false ∧ f.training_metrics_steps.is_present = false

/-- Exactly the nested `policy_hidden_layer_sizes` flag was supplied. -/
@[reducible] def OnlyPolicyHiddenSizes (f : Flags) : Prop :=
  f.policy_hidden_layer_sizes.is_present = true ∧
  f.num_timesteps.is_present = false ∧ f.play_only.is_present = false ∧
  f.num_evals.is_present = false ∧ f.reward_scaling.is_present = false ∧
  f.episode_length.is_present = false ∧ f.normalize_observations.is_present = false ∧
  f.action_repeat.is_present = false ∧ f.unroll_length.is_present = false ∧
  f.num_minibatches.is_present = false ∧ f.num_updates_per_batch.is_present = false ∧
  f.discounting.is_present = false ∧ f.learning_rate.is_present = false ∧
  f.entropy_cost.is_present = false ∧ f.num_envs.is_present = false ∧
  f.num_eval_envs.is_present = false ∧ f.batch_size.is_present = false ∧
  f.max_grad_norm.is_present = false ∧ f.clipping_epsilon.is_present = false ∧
  f.value_hidden_layer_sizes.is_present = false ∧ f.policy_obs_key.is_present = false ∧
  f.value_obs_key.is_present = false ∧ f.run_evals.is_present = false ∧
  f.log_training_metrics.is_present = false ∧ f.training_metrics_steps.is_present = false

/-- Sample `network_factory` sub-tree: the source flag defaults
(`[64, 64, 64]` hidden layers, `"state"` observation keys). -/
def sampleNetworkFactoryCfg : NetworkFactoryCfg :=
  { policy_hidden_layer_sizes := [64, 64, 64], value_hidden_layer_sizes := [64, 64, 64],
    policy_obs_key := "state", value_obs_key := "state" }

/-- Sample base configuration built from the source flag defaults, used to
instantiate the universally quantified theorems at concrete inputs. -/
def sampleParams : RLParams :=
  { num_timesteps := 1000000, num_evals := 5, reward_scaling := 1/10, episode_length := 1000,
    normalize_observations := true, action_repeat := 1, unroll_length := 10, num_minibatches := 8,
    num_updates_per_batch := 8, discounting := 97/100, learning_rate := 1/2000,
    entropy_cost := 1/200, num_envs := 1024, num_eval_envs := 128, batch_size := 256,
    max_grad_norm := 1, clipping_epsilon := 1/5,
    network_factory := some sampleNetworkFactoryCfg,
    run_evals := true, log_training_metrics := false, training_metrics_steps := 1000000 }

/-- The command line with no flag supplied: every `is_present` bit is
false and each value is the source default. -/
def absentFlags : Flags :=
  { num_timesteps := ⟨1000000, false⟩, play_only := ⟨false, false⟩, num_evals := ⟨5, false⟩,
    reward_scaling := ⟨1/10, false⟩, episode_length := ⟨1000, false⟩,
    normalize_observations := ⟨true, false⟩, action_repeat := ⟨1, false⟩,
    unroll_length := ⟨10, false⟩, num_minibatches := ⟨8, false⟩,
    num_updates_per_batch := ⟨8, false⟩, discounting := ⟨97/100, false⟩,
    learning_rate := ⟨1/2000, false⟩, entropy_cost := ⟨1/200, false⟩,
    num_envs := ⟨1024, false⟩, num_eval_envs := ⟨128, false⟩, batch_size := ⟨256, false⟩,
    max_grad_norm := ⟨1, false⟩, clipping_epsilon := ⟨1/5, false⟩,
    policy_hidden_layer_sizes := ⟨[64, 64, 64], false⟩,
    value_hidden_layer_sizes := ⟨[64, 64, 64], false⟩,
    policy_obs_key := ⟨"state", false⟩, value_obs_key := ⟨"state", false⟩,
    run_evals := ⟨true, false⟩, log_training_metrics := ⟨false, false⟩,
    training_metrics_steps := ⟨1000000, false⟩ }

/-- A command line supplying only `--learning_rate=0.003`. -/
def lrOnlyFlags : Flags := { absentFlags with learning_rate := ⟨3/1000, true⟩ }

/-- A command line supplying only `--policy_hidden_layer_sizes=128,128`. -/
def policyHiddenOnlyFlags : Flags :=
  { absentFlags with policy_hidden_layer_sizes := ⟨[128, 128], true⟩ }

/-- A sample base configuration with no `network_factory` sub-tree. -/
def sampleParamsNoNF : RLParams := { sampleParams with network_factory := none }

/-! ### Checkpoint resolution (CheckpointLocator)

Embedding of `train_jax_ppo.py`, `main` lines 293-308.  When the supplied
checkpoint path names a directory, the source lists its immediate
subdirectories, sorts them with `key=lambda x: int(x.name)` and picks the
last element.  The input to the model is the list of subdirectory names in
filesystem enumeration order (files are already filtered out by the
`is_dir()` guard). -/

/-- Decimal digit value of a character, if it is a digit. -/
def digitVal? (c : Char) : Option Nat :=
  if 47 < c.toNat && c.toNat < 58 then some (c.toNat - 48) else none

/-- Accumulate a nonempty run of decimal digits; `none` on any non-digit. -/
def parseDigitsAux : List Char → Nat → Option Nat
  | [], acc => some acc
  | c :: rest, acc =>
    match digitVal? c with
    | none => none
    | some d => parseDigitsAux rest (acc * 10 + d)

/-- Model of Python `int(s)` on a checkpoint directory name: an optional
sign followed by a nonempty run of decimal digits; `none` models the
`ValueError` that `int` raises otherwise.  (Python also strips whitespace
and allows digit-group underscores; no checkpoint name of interest uses
those forms.) -/
def pyInt? (s : String) : Option Int :=
  match s.data with
  | [] => none
  | c :: rest =>
    if c = Char.ofNat 45 then
      match rest with
      | [] => none
      | _ :: _ => (parseDigitsAux rest 0).map (fun n => -(n : Int))
    else if c = Char.ofNat 43 then
      match rest with
      | [] => none
      | _ :: _ => (parseDigitsAux rest 0).map Int.ofNat
    else (parseDigitsAux s.data 0).map Int.ofNat

/-- The sort key `int(x.name)` of line 299.  On the code path where it is
used, every name parses, so the `getD` default is never observable. -/
def ckptKey (s : String) : Int := (pyInt? s).getD 0

/-- Comparison used by the sort of line 299. -/
def ckptKeyLe (a b : String) : Prop := ckptKey a ≤ ckptKey b

instance : DecidableRel ckptKeyLe := fun a b => Int.decLe (ckptKey a) (ckptKey b)

instance : IsTotal String ckptKeyLe := ⟨fun a b => le_total (ckptKey a) (ckptKey b)⟩

instance : IsTrans String ckptKeyLe := ⟨fun a b c => le_trans⟩

/-- `latest_ckpts.sort(key=lambda x: int(x.name))`: a stable sort by the
integer key.  Python `list.sort` is stable, and the output of a stable
sort is uniquely determined (sorted by key, equal keys in original
order), so the stable `insertionSort` computes the same list. -/
def sortCkpts (names : List String) : List String := List.insertionSort ckptKeyLe names

/-- CPython `list.sort(key=...)` computes the key of every element in list
order before sorting, so the `ValueError` from `int` is raised at the
first non-parseable name. -/
def firstUnparseable : List String → Option String
  | [] => none
  | s :: rest => if (pyInt? s).isSome then firstUnparseable rest else some s

/-- Failure modes of checkpoint resolution.  `malformedCheckpointName`
is the `ValueError` raised by `int(x.name)` (its message names the
offending entry); `indexError` is the `IndexError` raised by
`latest_ckpts[-1]` on an empty list; `noCheckpointFound` is the explicit
error the specification mandates for an empty directory — the source never
produces it. -/
inductive CkptError where
  | malformedCheckpointName (entry : String)
  | indexError
  | noCheckpointFound
deriving DecidableEq

/-- Lines 296-301 of `main`: resolve the latest checkpoint among the
integer-named subdirectories. -/
def resolveLatest (subdirNames : List String) : Except CkptError String :=
  match firstUnparseable subdirNames with
  | some bad => .error (.malformedCheckpointName bad)
  | none =>
    match (sortCkpts subdirNames).getLast? with
    | none => .error .indexError
    | some latest => .ok latest

/-- Discriminator: did resolution fail with the spec-mandated
`NoCheckpointFound` error? -/
def isNoCheckpointFoundError : Except CkptError String → Bool
  | .error .noCheckpointFound => true
  | _ => false

/-! ### Environment registry (EnvironmentRegistry)

Embedding of `src/methods/envs/registry.py` and
`src/methods/envs/locomotion/__init__.py`.  Environment classes and
randomizer functions are external jax code; only their registry keys are
observable at this layer.  A default-config factory is modelled by the
config tree it constructs. -/

/-- An environment configuration tree as handed around by the registry
(an `ml_collections.ConfigDict`): an ordered field map whose values are
abstracted to `Int` tokens.  Python truthiness of a `ConfigDict` is
`len(cfg) != 0`. -/
abbrev EnvConfig : Type := List (String × Int)

/-- Ordered-dict lookup, `d[k]` / `k in d`. -/
def lookupKey {α : Type} : List (String × α) → String → Option α
  | [], _ => none
  | (k2, v2) :: rest, k => if k2 = k then some v2 else lookupKey rest k

/-- Python dict assignment `d[k] = v`: overwrites in place, or appends a
new key in insertion order. -/
def dictSet {α : Type} : List (String × α) → String → α → List (String × α)
  | [], k, v => [(k, v)]
  | (k2, v2) :: rest, k, v =>
    if k2 = k then (k, v) :: rest else (k2, v2) :: dictSet rest k v

/-- The mutable module-level state of `locomotion/__init__.py`: the
`_envs`, `_cfgs` and `_randomizer` dictionaries.  `_envs` and
`_randomizer` values are external classes/functions, so only their key
sets (in insertion order) are kept; `_cfgs` maps a name to the tree its
default-config factory constructs. -/
structure LocRegistry where
  envKeys : List String
  cfgs : List (String × EnvConfig)
  randomizerKeys : List String
deriving DecidableEq

/-- Registry failures: `unknownEnvironment` models the Python
`ValueError` raised for an unregistered name (the spec calls it
`UnknownEnvironment`), carrying the exact message. -/
inductive RegistryError where
  | unknownEnvironment (msg : String)
deriving DecidableEq

/-- An environment instance as far as this layer observes it: the name it
was constructed for and the config it was handed.  (`config_overrides` is
forwarded verbatim to the external factory and not modelled.) -/
structure EnvInstance where
  env_name : String
  config : EnvConfig
deriving DecidableEq

namespace locomotion

/-- `ALL_ENVS`: the module `__getattr__` returns `tuple(_envs.keys())`. -/
def ALL_ENVS (reg : LocRegistry) : List String := reg.envKeys

/-- `register_environment(env_name, env_class, cfg_class)` (lines 54-67):
inserts or overwrites `_envs[env_name]` and `_cfgs[env_name]`; the
`_randomizer` dictionary is not touched. -/
def register_environment (reg : LocRegistry) (env_name : String) (cfg : EnvConfig) :
    LocRegistry :=
  { reg with
    envKeys := if env_name ∈ reg.envKeys then reg.envKeys else reg.envKeys ++ [env_name]
    cfgs := dictSet reg.cfgs env_name cfg }

/-- The error message of `locomotion.get_default_config` (lines 73-76):
it enumerates `list(_cfgs.keys())`. -/
def locCfgNotFoundMsg (reg : LocRegistry) (env_name : String) : String :=
  "Env " ++ pyQuote env_name ++ " not found in default configs. Available configs: " ++
    pyListRepr (reg.cfgs.map Prod.fst)

/-- `locomotion.get_default_config` (lines 70-77): raises for a name
absent from `_cfgs`, else constructs the default config. -/
def get_default_config (reg : LocRegistry) (env_name : String) :
    Except RegistryError EnvConfig :=
  match lookupKey reg.cfgs env_name with
  | none => .error (.unknownEnvironment (locCfgNotFoundMsg reg env_name))
  | some cfg => .ok cfg

/-- The error message of `locomotion.load` (lines 98-100); the source
interpolates `_cfgs.keys()`, which Python renders as a `dict_keys` view. -/
def locLoadNotFoundMsg (reg : LocRegistry) (env_name : String) : String :=
  "Env " ++ pyQuote env_name ++ " not found. Available envs: dict_keys(" ++
    pyListRepr (reg.cfgs.map Prod.fst) ++ ")"

/-- `locomotion.load` (lines 80-102): ensure the external asset bundle
(idempotent, no observable state here), check `_envs` membership, then
`config = config or get_default_config(env_name)` — Python `or` takes the
default both when `config` is `None` (absent) and when it is falsy (an
empty `ConfigDict` has `len == 0`) — and construct the instance. -/
def load (reg : LocRegistry) (env_name : String) (config : Option EnvConfig) :
    Except RegistryError EnvInstance :=
  if env_name ∈ reg.envKeys then
    let resolved : Except RegistryError EnvConfig :=
      match config with
      | none => get_default_config reg env_name
      | some c => if c.isEmpty then get_default_config reg env_name else .ok c
    resolved.map (fun cfg => { env_name := env_name, config := cfg })
  else
    .error (.unknownEnvironment (locLoadNotFoundMsg reg env_name))

/-- The diagnostic notice printed by `locomotion.get_domain_randomizer`
(lines 110-113). -/
def noRandomizerMsg (env_name : String) : String :=
  "Env " ++ pyQuote env_name ++
    " does not have a domain randomizer in the locomotion registry."

/-- `locomotion.get_domain_randomizer` (lines 105-115): a name absent from
`_randomizer` is not an error — a notice is printed and `None` returned.
The result pairs the randomizer (identified by its key; the function
itself is external) with the list of printed notices. -/
def get_domain_randomizer (reg : LocRegistry) (env_name : String) :
    Option String × List String :=
  if env_name ∈ reg.randomizerKeys then (some env_name, [])
  else (none, [noRandomizerMsg env_name])

end locomotion

namespace registry

/-- The error message of `registry.get_default_config` (line 30): it does
not enumerate any environment names. -/
def regCfgNotFoundMsg (env_name : String) : String :=
  "Env " ++ pyQuote env_name ++ " not found in default configs."

/-- `registry.get_default_config` (lines 26-30): delegate to the
locomotion suite when the name is in `locomotion.ALL_ENVS`, else raise. -/
def get_default_config (reg : LocRegistry) (env_name : String) :
    Except RegistryError EnvConfig :=
  if env_name ∈ locomotion.ALL_ENVS reg then locomotion.get_default_config reg env_name
  else .error (.unknownEnvironment (regCfgNotFoundMsg env_name))

/-- The error message of `registry.load` (line 40): this one enumerates
`ALL_ENVS` (a tuple). -/
def regLoadNotFoundMsg (reg : LocRegistry) (env_name : String) : String :=
  "Env " ++ pyQuote env_name ++ " not found. Available envs: " ++
    pyTupleRepr (locomotion.ALL_ENVS reg)

/-- `registry.load` (lines 32-40). -/
def load (reg : LocRegistry) (env_name : String) (config : Option EnvConfig) :
    Except RegistryError EnvInstance :=
  if env_name ∈ locomotion.ALL_ENVS reg then locomotion.load reg env_name config
  else .error (.unknownEnvironment (regLoadNotFoundMsg reg env_name))

/-- `registry.get_domain_randomizer` (lines 42-46): outside the locomotion
suite it silently returns `None`. -/
def get_domain_randomizer (reg : LocRegistry) (env_name : String) :
    Option String × List String :=
  if env_name ∈ locomotion.ALL_ENVS reg then locomotion.get_domain_randomizer reg env_name
  else (none, [])

end registry

/-- Stand-in for the external `g1_joystick.default_config()` tree; its
contents live outside this layer, only nonemptiness matters here. -/
def g1DefaultConfig : EnvConfig := [("ctrl_dt", 1), ("sim_dt", 1), ("episode_length", 1000)]

/-- The module-level registry state after import (lines 28-45 of
`locomotion/__init__.py`): both G1 joystick tasks are in `_envs`, `_cfgs`
and `_randomizer`. -/
def initRegistry : LocRegistry :=
  { envKeys := ["G1JoystickFlatTerrain", "G1JoystickRoughTerrain"]
    cfgs := [("G1JoystickFlatTerrain", g1DefaultConfig),
             ("G1JoystickRoughTerrain", g1DefaultConfig)]
    randomizerKeys := ["G1JoystickFlatTerrain", "G1JoystickRoughTerrain"] }

/-! ### Orchestration prefix of `main` (TrainingOrchestrator) -/

/-- Result of `get_rl_config` (lines 170-179).  For a registered env and
agent `"ppo"`/`"fql"` (case-insensitive) the external brax config is
produced (`ok`; its contents come from `methods.configs`, outside this
layer).  For any other agent name line 177 reads
`return ValueError("Invalid agent name.")` — the exception object is
RETURNED, not raised, and flows to the caller as its `rl_params`.  For an
env outside the suite the function raises. -/
inductive RlConfigResult where
  | ok
  | returnedValueError
  | raised (msg : String)
deriving DecidableEq

/-- `get_rl_config` (lines 170-179). -/
def get_rl_config (reg : LocRegistry) (env_name agent_name : String) : RlConfigResult :=
  if env_name ∈ locomotion.ALL_ENVS reg then
    if lowerStr agent_name = "ppo" then .ok
    else if lowerStr agent_name = "fql" then .ok
    else .returnedValueError
  else
    .raised ("Env " ++ env_name ++ " not found in " ++
      pyTupleRepr (locomotion.ALL_ENVS reg) ++ ".")

/-- Filesystem side effects of the orchestration prefix of `main`. -/
inductive SideEffect where
  | logdirCreated
  | ckptDirCreated
  | configJsonWritten
  | trainingStarted
deriving DecidableEq

/-- Uncaught Python exceptions terminating the process. -/
inductive PyError where
  | valueError (msg : String)
  | typeError (msg : String)
deriving DecidableEq

/-- Observable prefix of `main` (lines 204-319) at the default command
line (no optional flag supplied; in particular no checkpoint path and no
wandb/tensorboard): the ordered filesystem side effects performed, paired
with the uncaught exception, if any, that terminates the process.

* line 204: `registry.get_default_config` raises for an unknown env
  before any side effect;
* line 207: `get_rl_config` raises for an unknown env but merely RETURNS
  a `ValueError` object for an unknown agent, which flows on bound to
  `rl_params` (attribute assignment on an exception instance succeeds,
  and with no flag present lines 209-262 do nothing);
* line 264: `registry.load` succeeds — the env is registered;
* line 279: `logdir.mkdir` — the first side effect;
* line 312: the checkpoint directory is created; line 316-317:
  `config.json` is written;
* line 319: `dict(rl_params)` raises `TypeError` when `rl_params` is the
  `ValueError` instance; otherwise the training call is reached. -/
def mainTrace (reg : LocRegistry) (env_name agent_name : String) :
    List SideEffect × Option PyError :=
  match registry.get_default_config reg env_name with
  | .error (.unknownEnvironment msg) => ([], some (.valueError msg))
  | .ok _ =>
    match get_rl_config reg env_name agent_name with
    | .raised msg => ([], some (.valueError msg))
    | .returnedValueError =>
        ([.logdirCreated, .ckptDirCreated, .configJsonWritten],
         some (.typeError (pyQuote "ValueError" ++ " object is not iterable")))
    | .ok =>
        ([.logdirCreated, .ckptDirCreated, .configJsonWritten, .trainingStarted], none)

/-- Lines 333-336 of `main`: with `--domain_randomization` the registry
randomizer (possibly `None`) is bound as `training_params["randomization_fn"]`;
without the flag the key is absent, which the external trainer defaults to
no randomization — both observable as `none` here. -/
def trainingRandomizationFn (reg : LocRegistry) (env_name : String)
    (domain_randomization : Bool) : Option String :=
  if domain_randomization then (registry.get_domain_randomizer reg env_name).1
  else none

/-! ### Rollout recording (RolloutRecorder)

Embedding of `do_rollout` and the surrounding loop, `train_jax_ppo.py`
lines 433-470. -/

/-- One step of simulation state (`state.data`), abstracted: the seven
recorded channels plus representative further `mjx.Data` fields
(acceleration, actuator activation, body positions, sensor data) that the
recorder must discard.  Array contents are abstracted to `Int` tokens. -/
structure DataState where
  qpos : Int
  qvel : Int
  time : Int
  ctrl : Int
  mocap_pos : Int
  mocap_quat : Int
  xfrc_applied : Int
  qacc : Int
  act : Int
  xpos : Int
  sensordata : Int
deriving DecidableEq

/-- A recorded per-step snapshot: each simulation-state field is either
captured (`some`) or discarded (`none`). -/
structure TrajSnapshot where
  qpos : Option Int
  qvel : Option Int
  time : Option Int
  ctrl : Option Int
  mocap_pos : Option Int
  mocap_quat : Option Int
  xfrc_applied : Option Int
  qacc : Option Int
  act : Option Int
  xpos : Option Int
  sensordata : Option Int
deriving DecidableEq

/-- `empty_traj` (lines 434-438): every field `None`. -/
def emptySnapshot : TrajSnapshot :=
  { qpos := none, qvel := none, time := none, ctrl := none, mocap_pos := none,
    mocap_quat := none, xfrc_applied := none, qacc := none, act := none,
    xpos := none, sensordata := none }

/-- Lines 445-453: `empty_traj.tree_replace({...})` on the post-step
state — exactly the seven schema fields are filled, everything else stays
`None`. -/
def recordStep (d : DataState) : TrajSnapshot :=
  { emptySnapshot with
    qpos := some d.qpos, qvel := some d.qvel, time := some d.time, ctrl := some d.ctrl,
    mocap_pos := some d.mocap_pos, mocap_quat := some d.mocap_quat,
    xfrc_applied := some d.xfrc_applied }

/-- `do_rollout` (lines 433-459): `jax.lax.scan` of the policy-and-step
body for `episode_length` iterations, collecting one snapshot per step in
order.  The policy/environment composite of lines 442-444 is external and
enters as `stepFn`. -/
def do_rollout (stepFn : DataState → DataState) : DataState → Nat → List TrajSnapshot
  | _, 0 => []
  | s, n + 1 =>
    let s1 := stepFn s
    recordStep s1 :: do_rollout stepFn s1 n

/-- Lines 461-470: `V = num_videos` seeded resets (`resetFn i` stands for
the vmapped external `eval_env.reset` on the i-th key), one rollout per
seed; `trajectories[i]` is the per-step snapshot list of rollout `i`. -/
def recordRollouts (stepFn : DataState → DataState) (resetFn : Nat → DataState)
    (V L : Nat) : List (List TrajSnapshot) :=
  (List.range V).map (fun i => do_rollout stepFn (resetFn i) L)

/-- A concrete simulation state for instantiating the rollout theorems. -/
def sampleDataState : DataState :=
  { qpos := 1, qvel := 2, time := 3, ctrl := 4, mocap_pos := 5, mocap_quat := 6,
    xfrc_applied := 7, qacc := 8, act := 9, xpos := 10, sensordata := 11 }

theorem applyNestedSteps_eq (p : RLParams) (f : Flags) :
    applyNestedSteps p f =
      match p.network_factory with
      | none =>
          if nestedPresent f then Except.error (.attributeError "network_factory")
          else Except.ok p
      | some nf => Except.ok { p with network_factory := some (applyNested nf f) } := by
  cases hnf : p.network_factory with
  | none =>
      cases h1 : f.policy_hidden_layer_sizes.is_present <;>
        cases h2 : f.value_hidden_layer_sizes.is_present <;>
        cases h3 : f.policy_obs_key.is_present <;>
        cases h4 : f.value_obs_key.is_present <;>
        simp [applyNestedSteps, setNetworkFactory, applyNested, nestedPresent,
          hnf, h1, h2, h3, h4, bind, Except.bind, pure, Except.pure]
  | some nf =>
      cases h1 : f.policy_hidden_layer_sizes.is_present <;>
        cases h2 : f.value_hidden_layer_sizes.is_present <;>
        cases h3 : f.policy_obs_key.is_present <;>
        cases h4 : f.value_obs_key.is_present <;>
        simp [applyNestedSteps, setNetworkFactory, applyNested, nestedPresent,
          hnf, h1, h2, h3, h4, bind, Except.bind, pure, Except.pure] <;>
        (try rw [show (⟨nf.policy_hidden_layer_sizes, nf.value_hidden_layer_sizes,
            nf.policy_obs_key, nf.value_obs_key⟩ : NetworkFactoryCfg) = nf from rfl, ← hnf])


theorem applyTopA_network_factory (p : RLParams) (f : Flags) :
    (applyTopA p f).network_factory = p.network_factory := by
  simp [applyTopA, apply_ite RLParams.network_factory]

set_option maxHeartbeats 2000000 in
theorem applyTopB_applyTopA_eq (p : RLParams) (f : Flags) :
    applyTopB (applyTopA p f) f = normTop p f := by
  ext <;> simp [applyTopA, applyTopB, normTop,
    apply_ite RLParams.num_timesteps, apply_ite RLParams.num_evals,
    apply_ite RLParams.reward_scaling, apply_ite RLParams.episode_length,
    apply_ite RLParams.normalize_observations, apply_ite RLParams.action_repeat,
    apply_ite RLParams.unroll_length, apply_ite RLParams.num_minibatches,
    apply_ite RLParams.num_updates_per_batch, apply_ite RLParams.discounting,
    apply_ite RLParams.learning_rate, apply_ite RLParams.entropy_cost,
    apply_ite RLParams.num_envs, apply_ite RLParams.num_eval_envs,
    apply_ite RLParams.batch_size, apply_ite RLParams.max_grad_norm,
    apply_ite RLParams.clipping_epsilon, apply_ite RLParams.network_factory,
    apply_ite RLParams.run_evals, apply_ite RLParams.log_training_metrics,
    apply_ite RLParams.training_metrics_steps]

set_option maxHeartbeats 2000000 in
theorem applyTopB_network_factory_set (p : RLParams) (f : Flags) (x : Option NetworkFactoryCfg) :
    applyTopB { p with network_factory := x } f = { applyTopB p f with network_factory := x } := by
  ext <;> simp [applyTopB,
    apply_ite RLParams.num_timesteps, apply_ite RLParams.num_evals,
    apply_ite RLParams.reward_scaling, apply_ite RLParams.episode_length,
    apply_ite RLParams.normalize_observations, apply_ite RLParams.action_repeat,
    apply_ite RLParams.unroll_length, apply_ite RLParams.num_minibatches,
    apply_ite RLParams.num_updates_per_batch, apply_ite RLParams.discounting,
    apply_ite RLParams.learning_rate, apply_ite RLParams.entropy_cost,
    apply_ite RLParams.num_envs, apply_ite RLParams.num_eval_envs,
    apply_ite RLParams.batch_size, apply_ite RLParams.max_grad_norm,
    apply_ite RLParams.clipping_epsilon, apply_ite RLParams.network_factory,
    apply_ite RLParams.run_evals, apply_ite RLParams.log_training_metrics,
    apply_ite RLParams.training_metrics_steps]

/-- Full characterization of the override block of `main`, lines 209-262:
when the base configuration has no `network_factory` sub-tree, any present
nested flag aborts with `AttributeError`; otherwise the result is the
top-level normal form with the nested sub-tree merged at the leaf level. -/
theorem applyFlagOverrides_eq (p0 : RLParams) (f : Flags) :
    applyFlagOverrides p0 f =
      match p0.network_factory with
      | none =>
          if nestedPresent f then Except.error (.attributeError "network_factory")
          else Except.ok (normTop p0 f)
      | some nf =>
          Except.ok { normTop p0 f with network_factory := some (applyNested nf f) } := by
  have h1 := applyNestedSteps_eq (applyTopA p0 f) f
  rw [applyTopA_network_factory] at h1
  cases hnf : p0.network_factory with
  | none =>
      rw [hnf] at h1
      by_cases hp : nestedPresent f = true
      · simp [applyFlagOverrides, h1, hp, bind, Except.bind]
      · simp only [Bool.not_eq_true] at hp
        simp [applyFlagOverrides, h1, hp, bind, Except.bind, applyTopB_applyTopA_eq,
          pure, Except.pure]
  | some nf =>
      rw [hnf] at h1
      simp [applyFlagOverrides, h1, bind, Except.bind, applyTopB_network_factory_set,
        applyTopB_applyTopA_eq, pure, Except.pure]

theorem NetworkFactoryCfg.eta_expand (nf : NetworkFactoryCfg) :
    (⟨nf.policy_hidden_layer_sizes, nf.value_hidden_layer_sizes,
      nf.policy_obs_key, nf.value_obs_key⟩ : NetworkFactoryCfg) = nf := rfl

/-- C1: config resolution is a sparse leaf-level merge over the base tree.
If only `learning_rate` is supplied, every other resolved field equals the
unmodified default; if only the nested `policy_hidden_layer_sizes` flag is
supplied and the base has a `network_factory` sub-tree, every sibling
nested field is unchanged; and a flag that is not explicitly supplied
(`is_present = false`) never changes any field of the base config. -/
theorem config_resolution_sparse_merge (base : RLParams) (f : Flags) :
    (OnlyLearningRate f →
      applyFlagOverrides base f =
        Except.ok { base with learning_rate := f.learning_rate.value }) ∧
    (OnlyPolicyHiddenSizes f → ∀ nf, base.network_factory = some nf →
      applyFlagOverrides base f =
        Except.ok { base with
          network_factory :=
            some ({ nf with policy_hidden_layer_sizes := f.policy_hidden_layer_sizes.value }) }) ∧
    (∀ p', applyFlagOverrides base f = Except.ok p' →
      (f.num_timesteps.is_present = false → f.play_only.is_present = false →
        p'.num_timesteps = base.num_timesteps) ∧
      (f.num_evals.is_present = false → p'.num_evals = base.num_evals) ∧
      (f.reward_scaling.is_present = false → p'.reward_scaling = base.reward_scaling) ∧
      (f.episode_length.is_present = false → p'.episode_length = base.episode_length) ∧
      (f.normalize_observations.is_present = false →
        p'.normalize_observations = base.normalize_observations) ∧
      (f.action_repeat.is_present = false → p'.action_repeat = base.action_repeat) ∧
      (f.unroll_length.is_present = false → p'.unroll_length = base.unroll_length) ∧
      (f.num_minibatches.is_present = false → p'.num_minibatches = base.num_minibatches) ∧
      (f.num_updates_per_batch.is_present = false →
        p'.num_updates_per_batch = base.num_updates_per_batch) ∧
      (f.discounting.is_present = false → p'.discounting = base.discounting) ∧
      (f.learning_rate.is_present = false → p'.learning_rate = base.learning_rate) ∧
      (f.entropy_cost.is_present = false → p'.entropy_cost = base.entropy_cost) ∧
      (f.num_envs.is_present = false → p'.num_envs = base.num_envs) ∧
      (f.num_eval_envs.is_present = false → p'.num_eval_envs = base.num_eval_envs) ∧
      (f.batch_size.is_present = false → p'.batch_size = base.batch_size) ∧
      (f.max_grad_norm.is_present = false → p'.max_grad_norm = base.max_grad_norm) ∧
      (f.clipping_epsilon.is_present = false → p'.clipping_epsilon = base.clipping_epsilon) ∧
      (f.run_evals.is_present = false → p'.run_evals = base.run_evals) ∧
      (f.log_training_metrics.is_present = false →
        p'.log_training_metrics = base.log_training_metrics) ∧
      (f.training_metrics_steps.is_present = false →
        p'.training_metrics_steps = base.training_metrics_steps) ∧
      (f.policy_hidden_layer_sizes.is_present = false →
        p'.network_factory.map NetworkFactoryCfg.policy_hidden_layer_sizes =
          base.network_factory.map NetworkFactoryCfg.policy_hidden_layer_sizes) ∧
      (f.value_hidden_layer_sizes.is_present = false →
        p'.network_factory.map NetworkFactoryCfg.value_hidden_layer_sizes =
          base.network_factory.map NetworkFactoryCfg.value_hidden_layer_sizes) ∧
      (f.policy_obs_key.is_present = false →
        p'.network_factory.map NetworkFactoryCfg.policy_obs_key =
          base.network_factory.map NetworkFactoryCfg.policy_obs_key) ∧
      (f.value_obs_key.is_present = false →
        p'.network_factory.map NetworkFactoryCfg.value_obs_key =
          base.network_factory.map NetworkFactoryCfg.value_obs_key)) := by
  refine ⟨?_, ?_, ?_⟩
  · rintro ⟨hlr, h1, h2, h3, h4, h5, h6, h7, h8, h9, h10, h11, h12, h13, h14, h15, h16,
      h17, h18, h19, h20, h21, h22, h23, h24⟩
    rw [applyFlagOverrides_eq]
    cases hnf : base.network_factory with
    | none =>
        simp [nestedPresent, h18, h19, h20, h21, normTop, hlr,
          h1, h2, h3, h4, h5, h6, h7, h8, h9, h10, h11, h12, h13, h14, h15, h16, h17,
          h22, h23, h24, hnf]
    | some nf =>
        simp [nestedPresent, h18, h19, h20, h21, normTop, applyNested, hlr,
          h1, h2, h3, h4, h5, h6, h7, h8, h9, h10, h11, h12, h13, h14, h15, h16, h17,
          h22, h23, h24, hnf, NetworkFactoryCfg.eta_expand]
  · rintro ⟨hph, h1, h2, h3, h4, h5, h6, h7, h8, h9, h10, h11, h12, h13, h14, h15, h16,
      h17, h18, h19, h20, h21, h22, h23, h24⟩ nf hnf
    rw [applyFlagOverrides_eq, hnf]
    simp [normTop, applyNested, hph,
      h1, h2, h3, h4, h5, h6, h7, h8, h9, h10, h11, h12, h13, h14, h15, h16, h17,
      h18, h19, h20, h21, h22, h23, h24, hnf]
  · intro p' h
    rw [applyFlagOverrides_eq] at h
    cases hnf : base.network_factory with
    | none =>
        rw [hnf] at h
        cases hq : nestedPresent f with
        | true => rw [hq] at h; simp at h
        | false =>
            rw [hq] at h
            simp only [Bool.false_eq_true, if_false, Except.ok.injEq] at h
            subst h
            refine ⟨fun ha hb => ?_, fun ha => ?_, fun ha => ?_, fun ha => ?_, fun ha => ?_,
              fun ha => ?_, fun ha => ?_, fun ha => ?_, fun ha => ?_, fun ha => ?_,
              fun ha => ?_, fun ha => ?_, fun ha => ?_, fun ha => ?_, fun ha => ?_,
              fun ha => ?_, fun ha => ?_, fun ha => ?_, fun ha => ?_, fun ha => ?_,
              fun ha => ?_, fun ha => ?_, fun ha => ?_, fun ha => ?_⟩ <;>
              simp_all [normTop]
    | some nf =>
        rw [hnf] at h
        simp only [Except.ok.injEq] at h
        subst h
        refine ⟨fun ha hb => ?_, fun ha => ?_, fun ha => ?_, fun ha => ?_, fun ha => ?_,
          fun ha => ?_, fun ha => ?_, fun ha => ?_, fun ha => ?_, fun ha => ?_,
          fun ha => ?_, fun ha => ?_, fun ha => ?_, fun ha => ?_, fun ha => ?_,
          fun ha => ?_, fun ha => ?_, fun ha => ?_, fun ha => ?_, fun ha => ?_,
          fun ha => ?_, fun ha => ?_, fun ha => ?_, fun ha => ?_⟩ <;>
          simp_all [normTop, applyNested]

theorem config_resolution_sparse_merge_witness :
    (OnlyLearningRate lrOnlyFlags ∧
      applyFlagOverrides sampleParams lrOnlyFlags =
        Except.ok { sampleParams with learning_rate := 3/1000 }) ∧
    (OnlyPolicyHiddenSizes policyHiddenOnlyFlags ∧
      applyFlagOverrides sampleParams policyHiddenOnlyFlags =
        Except.ok { sampleParams with
          network_factory :=
            some ({ sampleNetworkFactoryCfg with policy_hidden_layer_sizes := [128, 128] }) }) :=
  ⟨⟨by decide, (config_resolution_sparse_merge sampleParams lrOnlyFlags).1 (by decide)⟩,
   ⟨by decide,
    (config_resolution_sparse_merge sampleParams policyHiddenOnlyFlags).2.1 (by decide)
      sampleNetworkFactoryCfg rfl⟩⟩

/-- C7 counterexample: with `network_factory` absent from the base config,
an explicitly supplied nested override is not dropped without effect — the
resolution aborts with an `AttributeError` (from reading the missing
`network_factory` attribute), so the resolved config does not equal the
result of applying only the non-nested overrides (which here is the
unchanged base). -/
theorem absent_network_factory_cex :
    applyFlagOverrides sampleParamsNoNF policyHiddenOnlyFlags =
      Except.error (ResolveError.attributeError "network_factory") ∧
    applyFlagOverrides sampleParamsNoNF absentFlags = Except.ok sampleParamsNoNF ∧
    Except.error (ResolveError.attributeError "network_factory") ≠
      (Except.ok sampleParamsNoNF : Except ResolveError RLParams) := by
  refine ⟨by rfl, by rfl, by simp⟩

/-- C7 (amended): if `network_factory` is absent from the base config,
an explicitly supplied nested override makes resolution fail with an
`AttributeError` (it is not silently dropped); when no nested override is
supplied, the resolved config is exactly the result of applying the
non-nested overrides, and no `network_factory` sub-tree is implicitly
created. -/
theorem absent_network_factory_nested_error (base : RLParams) (f : Flags)
    (hb : base.network_factory = none) :
    (nestedPresent f = true →
      applyFlagOverrides base f = Except.error (ResolveError.attributeError "network_factory")) ∧
    (nestedPresent f = false →
      applyFlagOverrides base f = Except.ok (normTop base f) ∧
      (normTop base f).network_factory = none) := by
  rw [applyFlagOverrides_eq, hb]
  constructor <;> intro h <;> simp [h, normTop, hb]

theorem absent_network_factory_nested_error_witness :
    ((nestedPresent policyHiddenOnlyFlags = true →
      applyFlagOverrides sampleParamsNoNF policyHiddenOnlyFlags =
        Except.error (ResolveError.attributeError "network_factory")) ∧
     (nestedPresent policyHiddenOnlyFlags = false →
      applyFlagOverrides sampleParamsNoNF policyHiddenOnlyFlags =
        Except.ok (normTop sampleParamsNoNF policyHiddenOnlyFlags) ∧
      (normTop sampleParamsNoNF policyHiddenOnlyFlags).network_factory = none)) ∧
    nestedPresent policyHiddenOnlyFlags = true :=
  ⟨absent_network_factory_nested_error sampleParamsNoNF policyHiddenOnlyFlags rfl, by decide⟩

theorem firstUnparseable_eq_none_iff (names : List String) :
    firstUnparseable names = none ↔ ∀ s ∈ names, (pyInt? s).isSome := by
  induction names with
  | nil => simp [firstUnparseable]
  | cons a l ih =>
      cases h : (pyInt? a).isSome <;>
        simp [firstUnparseable, h, ih]

theorem firstUnparseable_mem (names : List String) (bad : String)
    (h : firstUnparseable names = some bad) : bad ∈ names ∧ pyInt? bad = none := by
  induction names with
  | nil => simp [firstUnparseable] at h
  | cons a l ih =>
      cases hpa : pyInt? a with
      | none =>
          simp [firstUnparseable, hpa] at h
          subst h
          exact ⟨List.mem_cons_self a l, hpa⟩
      | some v =>
          simp [firstUnparseable, hpa] at h
          obtain ⟨h1, h2⟩ := ih h
          exact ⟨List.mem_cons_of_mem a h1, h2⟩

theorem pairwise_le_last {α : Type} {R : α → α → Prop} (hrefl : ∀ a, R a a)
    (l : List α) (hp : l.Pairwise R) (b : α) (hb : l.getLast? = some b) :
    ∀ x ∈ l, R x b := by
  obtain ⟨ys, rfl⟩ := List.getLast?_eq_some_iff.mp hb
  rw [List.pairwise_append] at hp
  intro x hx
  rcases List.mem_append.mp hx with hx | hx
  · exact hp.2.2 x hx b (List.mem_singleton_self b)
  · rw [List.mem_singleton.mp hx]
    exact hrefl b

/-- C2: for a checkpoint directory whose immediate subdirectory names all
parse as decimal integers, with at least one such subdirectory, resolution
selects the subdirectory with the maximum integer value (numeric order):
the sort is by integer key, so the last element of the sorted list has the
maximal key among all entries.  In particular, `"3", "10", "2"` resolves
to `"10"` (numeric, not lexicographic, order). -/
theorem checkpoint_resolution_selects_max :
    (∀ names : List String, names ≠ [] → (∀ s ∈ names, (pyInt? s).isSome) →
      ∃ best, resolveLatest names = Except.ok best ∧ best ∈ names ∧
        ∀ s ∈ names, ckptKey s ≤ ckptKey best) ∧
    resolveLatest ["3", "10", "2"] = Except.ok "10" := by
  constructor
  · intro names hne hall
    have hfu : firstUnparseable names = none := (firstUnparseable_eq_none_iff names).mpr hall
    have hperm : (sortCkpts names).Perm names := List.perm_insertionSort ckptKeyLe names
    have hlen : sortCkpts names ≠ [] := by
      intro h
      apply hne
      have hl := hperm.length_eq
      rw [h] at hl
      exact List.length_eq_zero.mp hl.symm
    obtain ⟨best, hbest⟩ : ∃ b, (sortCkpts names).getLast? = some b := by
      cases hg : (sortCkpts names).getLast? with
      | none => exact absurd (List.getLast?_eq_none_iff.mp hg) hlen
      | some b => exact ⟨b, rfl⟩
    have hsorted : (sortCkpts names).Pairwise ckptKeyLe :=
      List.sorted_insertionSort ckptKeyLe names
    have hle := pairwise_le_last (fun a => le_refl (ckptKey a)) (sortCkpts names)
      hsorted best hbest
    refine ⟨best, ?_, ?_, ?_⟩
    · simp [resolveLatest, hfu, hbest]
    · have hmem : best ∈ sortCkpts names := by
        obtain ⟨ys, hys⟩ := List.getLast?_eq_some_iff.mp hbest
        rw [hys]
        simp
      exact hperm.mem_iff.mp hmem
    · intro s hs
      have hs2 : s ∈ sortCkpts names := hperm.mem_iff.mpr hs
      exact hle s hs2
  · rfl

theorem checkpoint_resolution_selects_max_witness :
    (["3", "10", "2"] : List String) ≠ [] ∧
    (∃ best, resolveLatest ["3", "10", "2"] = Except.ok best ∧
      best ∈ (["3", "10", "2"] : List String) ∧
      ∀ s ∈ (["3", "10", "2"] : List String), ckptKey s ≤ ckptKey best) :=
  ⟨by decide, checkpoint_resolution_selects_max.1 ["3", "10", "2"] (by decide) (by decide)⟩

/-- C3: a checkpoint directory with zero integer-named subdirectories does
not produce the spec-mandated `NoCheckpointFound` error: the empty listing
hits `latest_ckpts[-1]` on an empty list, an out-of-bounds `IndexError`,
and no input ever yields `NoCheckpointFound`. -/
theorem checkpoint_empty_dir_index_error :
    resolveLatest [] = Except.error CkptError.indexError ∧
    (∀ names : List String, isNoCheckpointFoundError (resolveLatest names) = false) := by
  constructor
  · rfl
  · intro names
    cases hfu : firstUnparseable names with
    | some bad => simp [resolveLatest, hfu, isNoCheckpointFoundError]
    | none =>
        cases hg : (sortCkpts names).getLast? with
        | none => simp [resolveLatest, hfu, hg, isNoCheckpointFoundError]
        | some b => simp [resolveLatest, hfu, hg, isNoCheckpointFoundError]

/-- C4: if any subdirectory name does not parse as a decimal integer,
resolution fails with the `ValueError` from `int(x.name)` — modelled as
`malformedCheckpointName` carrying (naming) the offending entry.  In
particular, `"3", "abc"` fails naming `"abc"`. -/
theorem checkpoint_malformed_name_error :
    (∀ names : List String, (∃ s ∈ names, pyInt? s = none) →
      ∃ bad, resolveLatest names = Except.error (CkptError.malformedCheckpointName bad) ∧
        bad ∈ names ∧ pyInt? bad = none) ∧
    resolveLatest ["3", "abc"] = Except.error (CkptError.malformedCheckpointName "abc") := by
  constructor
  · intro names hex
    cases hfu : firstUnparseable names with
    | none =>
        exfalso
        obtain ⟨s, hs, hnone⟩ := hex
        have hsome := (firstUnparseable_eq_none_iff names).mp hfu s hs
        rw [hnone] at hsome
        simp at hsome
    | some bad =>
        obtain ⟨hmem, hnone⟩ := firstUnparseable_mem names bad hfu
        exact ⟨bad, by simp [resolveLatest, hfu], hmem, hnone⟩
  · rfl

theorem checkpoint_malformed_name_error_witness :
    (∃ s ∈ (["3", "abc"] : List String), pyInt? s = none) ∧
    (∃ bad, resolveLatest ["3", "abc"] = Except.error (CkptError.malformedCheckpointName bad) ∧
      bad ∈ (["3", "abc"] : List String) ∧ pyInt? bad = none) :=
  ⟨by decide, checkpoint_malformed_name_error.1 ["3", "abc"] (by decide)⟩

/-- C6 counterexample: `registry.get_default_config("DoesNotExist")` does
fail, but its error message does not contain the registered environment
names — no enumeration at all; the message that does enumerate all names
belongs to `registry.load`. -/
theorem unknown_env_message_cex :
    registry.get_default_config initRegistry "DoesNotExist" =
      Except.error (RegistryError.unknownEnvironment
        (registry.regCfgNotFoundMsg "DoesNotExist")) ∧
    "G1JoystickFlatTerrain" ∈ initRegistry.envKeys ∧
    strContains (registry.regCfgNotFoundMsg "DoesNotExist") "G1JoystickFlatTerrain" = false ∧
    strContains (registry.regCfgNotFoundMsg "DoesNotExist") "G1JoystickRoughTerrain" = false ∧
    strContains (registry.regLoadNotFoundMsg initRegistry "DoesNotExist")
      "G1JoystickFlatTerrain" = true := by
  refine ⟨rfl, by decide, by decide, by decide, by decide⟩

/-- C6 (amended): for every name not registered in any suite,
`get_default_config` fails with an `UnknownEnvironment` error, but the
message names only the requested environment — it does not carry the list
of registered names (that enumeration appears in `load`'s error
message). -/
theorem unknown_env_fails_without_enumeration (reg : LocRegistry) (name : String)
    (h : name ∉ locomotion.ALL_ENVS reg) :
    registry.get_default_config reg name =
      Except.error (RegistryError.unknownEnvironment
        ("Env " ++ pyQuote name ++ " not found in default configs.")) := by
  simp [registry.get_default_config, h, registry.regCfgNotFoundMsg]

theorem unknown_env_fails_without_enumeration_witness :
    "DoesNotExist" ∉ locomotion.ALL_ENVS initRegistry ∧
    registry.get_default_config initRegistry "DoesNotExist" =
      Except.error (RegistryError.unknownEnvironment
        ("Env " ++ pyQuote "DoesNotExist" ++ " not found in default configs.")) :=
  ⟨by decide, unknown_env_fails_without_enumeration initRegistry "DoesNotExist" (by decide)⟩

/-- C5 (code evaluation): an unknown environment terminates the run before
any side effect, but an unknown agent does not: with the registered env
`"G1JoystickFlatTerrain"` and agent `"sac"`, `get_rl_config` RETURNS the
`ValueError` instead of raising it, so `main` proceeds — it creates the
log directory, the checkpoint directory and `config.json` — and only then
dies with a `TypeError` at `dict(rl_params)`. -/
theorem unknown_agent_after_side_effects :
    mainTrace initRegistry "DoesNotExist" "ppo" =
      ([], some (PyError.valueError (registry.regCfgNotFoundMsg "DoesNotExist"))) ∧
    get_rl_config initRegistry "G1JoystickFlatTerrain" "sac" =
      RlConfigResult.returnedValueError ∧
    mainTrace initRegistry "G1JoystickFlatTerrain" "sac" =
      ([SideEffect.logdirCreated, SideEffect.ckptDirCreated, SideEffect.configJsonWritten],
       some (PyError.typeError (pyQuote "ValueError" ++ " object is not iterable"))) := by
  refine ⟨rfl, rfl, rfl⟩

/-- C8: requesting domain randomization for a registered environment that
has no registered randomizer is non-fatal: `get_domain_randomizer` prints
the diagnostic notice and returns `None`, the training call is assembled
with no randomization, and the run proceeds to training. -/
theorem missing_randomizer_nonfatal (reg : LocRegistry) (name : String)
    (henv : name ∈ reg.envKeys) (hrand : name ∉ reg.randomizerKeys)
    (hcfg : (lookupKey reg.cfgs name).isSome = true) :
    registry.get_domain_randomizer reg name =
      (none, [locomotion.noRandomizerMsg name]) ∧
    trainingRandomizationFn reg name true = none ∧
    mainTrace reg name "ppo" =
      ([SideEffect.logdirCreated, SideEffect.ckptDirCreated, SideEffect.configJsonWritten,
        SideEffect.trainingStarted], none) := by
  have h1 : registry.get_domain_randomizer reg name =
      (none, [locomotion.noRandomizerMsg name]) := by
    simp [registry.get_domain_randomizer, locomotion.get_domain_randomizer,
      locomotion.ALL_ENVS, henv, hrand]
  have hppo : lowerStr "ppo" = "ppo" := rfl
  refine ⟨h1, ?_, ?_⟩
  · simp [trainingRandomizationFn, h1]
  · obtain ⟨d, hd⟩ := Option.isSome_iff_exists.mp hcfg
    simp [mainTrace, registry.get_default_config, locomotion.get_default_config,
      locomotion.ALL_ENVS, henv, hd, get_rl_config, hppo]

theorem missing_randomizer_nonfatal_witness :
    (registry.get_domain_randomizer
        (locomotion.register_environment initRegistry "MyQuadruped" g1DefaultConfig)
        "MyQuadruped" =
      (none, [locomotion.noRandomizerMsg "MyQuadruped"]) ∧
     trainingRandomizationFn
        (locomotion.register_environment initRegistry "MyQuadruped" g1DefaultConfig)
        "MyQuadruped" true = none ∧
     mainTrace (locomotion.register_environment initRegistry "MyQuadruped" g1DefaultConfig)
        "MyQuadruped" "ppo" =
      ([SideEffect.logdirCreated, SideEffect.ckptDirCreated, SideEffect.configJsonWritten,
        SideEffect.trainingStarted], none)) :=
  missing_randomizer_nonfatal
    (locomotion.register_environment initRegistry "MyQuadruped" g1DefaultConfig)
    "MyQuadruped" (by decide) (by decide) (by decide)

theorem do_rollout_length (stepFn : DataState → DataState) (s : DataState) (L : Nat) :
    (do_rollout stepFn s L).length = L := by
  induction L generalizing s with
  | zero => rfl
  | succ n ih => simp [do_rollout, ih]

theorem do_rollout_mem (stepFn : DataState → DataState) (s : DataState) (L : Nat)
    (snap : TrajSnapshot) (h : snap ∈ do_rollout stepFn s L) :
    ∃ d, snap = recordStep d := by
  induction L generalizing s with
  | zero => simp [do_rollout] at h
  | succ n ih =>
      simp only [do_rollout, List.mem_cons] at h
      rcases h with rfl | h
      · exact ⟨stepFn s, rfl⟩
      · exact ih _ h

/-- C9: the rollout recorder produces exactly `V` trajectories, each an
ordered sequence of exactly `episode_length` snapshots, and each snapshot
carries exactly the seven schema fields (qpos, qvel, time, ctrl,
mocap_pos, mocap_quat, xfrc_applied) — every other simulation-state field
is discarded (`none`). -/
theorem rollout_recorder_schema (stepFn : DataState → DataState)
    (resetFn : Nat → DataState) (V L : Nat) :
    (recordRollouts stepFn resetFn V L).length = V ∧
    ∀ traj ∈ recordRollouts stepFn resetFn V L, traj.length = L ∧
      ∀ snap ∈ traj,
        snap.qpos.isSome = true ∧ snap.qvel.isSome = true ∧ snap.time.isSome = true ∧
        snap.ctrl.isSome = true ∧ snap.mocap_pos.isSome = true ∧
        snap.mocap_quat.isSome = true ∧ snap.xfrc_applied.isSome = true ∧
        snap.qacc = none ∧ snap.act = none ∧ snap.xpos = none ∧ snap.sensordata = none := by
  constructor
  · simp [recordRollouts]
  · intro traj htraj
    obtain ⟨i, _, rfl⟩ := List.mem_map.mp htraj
    refine ⟨do_rollout_length stepFn (resetFn i) L, ?_⟩
    intro snap hsnap
    obtain ⟨d, rfl⟩ := do_rollout_mem stepFn (resetFn i) L snap hsnap
    simp [recordStep, emptySnapshot]

theorem rollout_recorder_schema_witness :
    (recordRollouts id (fun _ => sampleDataState) 3 50).length = 3 ∧
    ∀ traj ∈ recordRollouts id (fun _ => sampleDataState) 3 50, traj.length = 50 ∧
      ∀ snap ∈ traj,
        snap.qpos.isSome = true ∧ snap.qvel.isSome = true ∧ snap.time.isSome = true ∧
        snap.ctrl.isSome = true ∧ snap.mocap_pos.isSome = true ∧
        snap.mocap_quat.isSome = true ∧ snap.xfrc_applied.isSome = true ∧
        snap.qacc = none ∧ snap.act = none ∧ snap.xpos = none ∧ snap.sensordata = none :=
  rollout_recorder_schema id (fun _ => sampleDataState) 3 50

/-- C10: at the public load interface a falsy caller-supplied config (an
empty tree, Python-falsy because `len == 0`) is treated exactly like an
absent config: `config or get_default_config(env_name)` takes the default
in both cases, so the environment is built from `get_default_config`. -/
theorem load_falsy_config_uses_default (reg : LocRegistry) (name : String) :
    locomotion.load reg name (some []) = locomotion.load reg name none ∧
    (∀ d, name ∈ reg.envKeys → lookupKey reg.cfgs name = some d →
      locomotion.load reg name (some []) =
        Except.ok { env_name := name, config := d }) := by
  constructor
  · by_cases h : name ∈ reg.envKeys <;> simp [locomotion.load, h]
  · intro d hm hl
    simp [locomotion.load, hm, locomotion.get_default_config, hl, Except.map]

theorem load_falsy_config_uses_default_witness :
    (locomotion.load initRegistry "G1JoystickFlatTerrain" (some []) =
      locomotion.load initRegistry "G1JoystickFlatTerrain" none) ∧
    locomotion.load initRegistry "G1JoystickFlatTerrain" (some []) =
      Except.ok { env_name := "G1JoystickFlatTerrain", config := g1DefaultConfig } :=
  ⟨(load_falsy_config_uses_default initRegistry "G1JoystickFlatTerrain").1,
   (load_falsy_config_uses_default initRegistry "G1JoystickFlatTerrain").2 g1DefaultConfig
     (by decide) (by decide)⟩

end DpWs
